import Mathlib

/-!
# Verification development for the `wasvm` WebAssembly virtual machine

Shallow embedding of the Rust sources of a small WebAssembly VM
(decoder, validator, stack interpreter) together with theorems about the
behaviour its specification describes.

Correspondence with the sources:

* `Trap`, `trapToString`          — `src/trap.rs` (`enum Trap`, `impl From<Trap> for String`)
* `Values` and its arithmetic     — `src/value.rs`; the `impl_traits!` instantiations at
  `i32`/`u32` and `i64`/`u64` become width-parametric functions over `Int`, with
  two's-complement wrapping written out explicitly (`wrapInt`, `toUnsigned`)
* `Inst`, the evaluator, `Vm.run` — `src/inst.rs` and `src/lib.rs`; only the instruction
  variants exercised by the claims are carried, each evaluator branch mirrors the
  corresponding `match` arm in `Vm::evaluate_instructions` / `Vm::evaluate`
* `decode_leb128`                 — `src/byte.rs` (`Byte::decode_leb128`), the byte cursor
  becoming an explicit list of remaining bytes
* `validate_constant`, `validate_load`, `validate_store`
                                  — `src/validate/context.rs`

The crate's `stack.rs` and `store.rs` are not among the sources.  `Stack`,
`Store` and the runtime `FunctionInstance` are therefore modelled from the
specification (one contiguous stack of tagged entries with a hard capacity,
a frame-pointer stack, the store owning the function instances) and from
their call sites in `lib.rs`; the capacity bound (65536 entries) is elided
because no claim concerns `StackOverflow`.  Rust panics (`unimplemented!`,
`unreachable!`, `.expect(..)`) have no counterpart in a total function and
are modelled by designated stand-in results (`Trap.Unknown`,
`Trap.StackUnderflow`, `unimplementedValue`); no theorem below travels
through such a path.  The evaluator's unbounded `while` loop and the
recursion `Call → evaluate → evaluate_instructions` are made total with a
fuel parameter; every theorem either takes the fuel symbolically
(`fuel + 1`) or supplies enough concrete fuel for the run to finish.
-/

/-- Runtime/decode errors, from `src/trap.rs` (`enum Trap`). -/
inductive Trap where
  | DivisionOverflow
  | DivisionByZero
  | MemoryAccessOutOfBounds
  | BitshiftOverflow
  | IntegerOverflow
  | InvalidConversionToInt
  | Unknown
  | StackOverflow
  | StackUnderflow
  | Notfound
  | Undefined
  | UndefinedElement
  | TypeMismatch
  | IndirectCallTypeMismatch
  | FailToGrow
  | UnexpectedEnd
  | InvalidSectionId
  | LengthOutofBounds
  | Unreachable
  | UnknownImport
  deriving DecidableEq

/-- External string form of a trap, from `impl From<Trap> for String` in `src/trap.rs`. -/
def trapToString : Trap → String
  | Trap.DivisionOverflow => "integer overflow"
  | Trap.DivisionByZero => "integer divide by zero"
  | Trap.MemoryAccessOutOfBounds => "out of bounds memory access"
  | Trap.BitshiftOverflow => "bit shift overflow"
  | Trap.IntegerOverflow => "integer overflow"
  | Trap.Unknown => "unknown"
  | Trap.Undefined => "undefined behavior occurred"
  | Trap.UndefinedElement => "undefined element"
  | Trap.Notfound => "not found"
  | Trap.StackOverflow => "stack overflow"
  | Trap.StackUnderflow => "stack underflow"
  | Trap.TypeMismatch => "type mismatch"
  | Trap.IndirectCallTypeMismatch => "indirect call type mismatch"
  | Trap.FailToGrow => "fail to grow"
  | Trap.InvalidConversionToInt => "invalid conversion to integer"
  | Trap.UnexpectedEnd => "unexpected end"
  | Trap.InvalidSectionId => "invalid section id"
  | Trap.LengthOutofBounds => "length out of bounds"
  | Trap.Unreachable => "unreachable executed"
  | Trap.UnknownImport => "unknown import"

/-- Wasm value types (`value_type::ValueTypes`); `Empty` is the no-result sentinel. -/
inductive ValueTypes where
  | I32
  | I64
  | F32
  | F64
  | Empty
  deriving DecidableEq

/-- Runtime values, from `src/value.rs` (`enum Values`); the source enum has
only the `I32(i32)` and `I64(i64)` variants (floats are commented out).
Machine integers are carried as unbounded `Int`; every operation that can
wrap normalises through `wrapInt`. -/
inductive Values where
  | I32 (n : Int)
  | I64 (n : Int)
  deriving DecidableEq

/-- Two's-complement wrap of an integer into the signed `w`-bit range,
making Rust's `wrapping_*` semantics explicit. -/
def wrapInt (w : Nat) (x : Int) : Int :=
  (x + 2 ^ (w - 1)) % 2 ^ w - 2 ^ (w - 1)

/-- The value `iN::MIN` of the signed `w`-bit type. -/
def intMin (w : Nat) : Int := -(2 ^ (w - 1))

/-- The unsigned reinterpretation (`as uN`) of a signed `w`-bit value. -/
def toUnsigned (w : Nat) (x : Int) : Int := x % 2 ^ w

/-- Rust `iN::overflowing_div`: overflows exactly at `(MIN, -1)`, where it
returns `(MIN, true)`; otherwise the truncated quotient.  From the
`div_s` body of `impl_traits!` in `src/value.rs`. -/
def overflowingDiv (w : Nat) (l r : Int) : Int × Bool :=
  if l = intMin w ∧ r = -1 then (intMin w, true) else (l.tdiv r, false)

/-- Rust `iN::overflowing_rem`: overflows exactly at `(MIN, -1)`, where it
returns `(0, true)`; otherwise the truncated remainder. -/
def overflowingRem (w : Nat) (l r : Int) : Int × Bool :=
  if l = intMin w ∧ r = -1 then (0, true) else (l.tmod r, false)

/-- `Arithmetic::div_s` from `src/value.rs`: zero divisor traps
`DivisionByZero`; an overflowing division traps `DivisionOverflow`;
otherwise the truncated quotient is returned. -/
def intDivS (w : Nat) (l r : Int) : Except Trap Int :=
  if r = 0 then Except.error Trap.DivisionByZero
  else
    let p := overflowingDiv w l r
    if p.2 then Except.error Trap.DivisionOverflow else Except.ok p.1

/-- `Arithmetic::rem_s` from `src/value.rs`: zero divisor traps
`DivisionByZero`; otherwise the first component of `overflowing_rem` is
returned and the overflow flag is discarded (`let (divined, _) = ...`). -/
def intRemS (w : Nat) (l r : Int) : Except Trap Int :=
  if r = 0 then Except.error Trap.DivisionByZero
  else Except.ok (overflowingRem w l r).1

/-- Comparison bodies of the `Arithmetic` trait in `src/value.rs`
(`impl_traits!`), width-parametric where the source casts to `uN`. -/
def Arith.equal (l r : Int) : Int := if l = r then 1 else 0

def Arith.not_equal (l r : Int) : Int := if l ≠ r then 1 else 0

def Arith.less_than (l r : Int) : Int := if l < r then 1 else 0

def Arith.less_than_equal (l r : Int) : Int := if l ≤ r then 1 else 0

def Arith.greater_than (l r : Int) : Int := if r < l then 1 else 0

def Arith.greater_than_equal (l r : Int) : Int := if r ≤ l then 1 else 0

def Arith.less_than_unsign (w : Nat) (l r : Int) : Int :=
  if toUnsigned w l < toUnsigned w r then 1 else 0

def Arith.less_than_equal_unsign (w : Nat) (l r : Int) : Int :=
  if toUnsigned w l ≤ toUnsigned w r then 1 else 0

def Arith.greater_than_unsign (w : Nat) (l r : Int) : Int :=
  if toUnsigned w r < toUnsigned w l then 1 else 0

def Arith.greater_than_equal_unsign (w : Nat) (l r : Int) : Int :=
  if toUnsigned w r ≤ toUnsigned w l then 1 else 0

/-- Stand-in for the `unimplemented!()` arms of `bynary_inst!` (mixed-type
operands); unreachable in every theorem of this file. -/
def unimplementedValue : Values := Values.I32 0

/-- `Values::add` (`bynary_inst!(add, wrapping_add)`). -/
def Values.add : Values → Values → Values
  | Values.I32 l, Values.I32 r => Values.I32 (wrapInt 32 (l + r))
  | Values.I64 l, Values.I64 r => Values.I64 (wrapInt 64 (l + r))
  | _, _ => unimplementedValue

/-- `Values::sub` (`bynary_inst!(sub, wrapping_sub)`). -/
def Values.sub : Values → Values → Values
  | Values.I32 l, Values.I32 r => Values.I32 (wrapInt 32 (l - r))
  | Values.I64 l, Values.I64 r => Values.I64 (wrapInt 64 (l - r))
  | _, _ => unimplementedValue

/-- `Values::mul` (`bynary_inst!(mul, wrapping_mul)`). -/
def Values.mul : Values → Values → Values
  | Values.I32 l, Values.I32 r => Values.I32 (wrapInt 32 (l * r))
  | Values.I64 l, Values.I64 r => Values.I64 (wrapInt 64 (l * r))
  | _, _ => unimplementedValue

/-- `Values::equal` — note that both the tag and the 0/1 payload keep the
operand type (`I64` operands produce an `I64` result). -/
def Values.equal : Values → Values → Values
  | Values.I32 l, Values.I32 r => Values.I32 (Arith.equal l r)
  | Values.I64 l, Values.I64 r => Values.I64 (Arith.equal l r)
  | _, _ => unimplementedValue

/-- `Values::not_equal`. -/
def Values.not_equal : Values → Values → Values
  | Values.I32 l, Values.I32 r => Values.I32 (Arith.not_equal l r)
  | Values.I64 l, Values.I64 r => Values.I64 (Arith.not_equal l r)
  | _, _ => unimplementedValue

/-- `Values::less_than`. -/
def Values.less_than : Values → Values → Values
  | Values.I32 l, Values.I32 r => Values.I32 (Arith.less_than l r)
  | Values.I64 l, Values.I64 r => Values.I64 (Arith.less_than l r)
  | _, _ => unimplementedValue

/-- `Values::less_than_equal`. -/
def Values.less_than_equal : Values → Values → Values
  | Values.I32 l, Values.I32 r => Values.I32 (Arith.less_than_equal l r)
  | Values.I64 l, Values.I64 r => Values.I64 (Arith.less_than_equal l r)
  | _, _ => unimplementedValue

/-- `Values::less_than_unsign`. -/
def Values.less_than_unsign : Values → Values → Values
  | Values.I32 l, Values.I32 r => Values.I32 (Arith.less_than_unsign 32 l r)
  | Values.I64 l, Values.I64 r => Values.I64 (Arith.less_than_unsign 64 l r)
  | _, _ => unimplementedValue

/-- `Values::less_than_equal_unsign`. -/
def Values.less_than_equal_unsign : Values → Values → Values
  | Values.I32 l, Values.I32 r => Values.I32 (Arith.less_than_equal_unsign 32 l r)
  | Values.I64 l, Values.I64 r => Values.I64 (Arith.less_than_equal_unsign 64 l r)
  | _, _ => unimplementedValue

/-- `Values::greater_than`. -/
def Values.greater_than : Values → Values → Values
  | Values.I32 l, Values.I32 r => Values.I32 (Arith.greater_than l r)
  | Values.I64 l, Values.I64 r => Values.I64 (Arith.greater_than l r)
  | _, _ => unimplementedValue

/-- `Values::greater_than_equal`. -/
def Values.greater_than_equal : Values → Values → Values
  | Values.I32 l, Values.I32 r => Values.I32 (Arith.greater_than_equal l r)
  | Values.I64 l, Values.I64 r => Values.I64 (Arith.greater_than_equal l r)
  | _, _ => unimplementedValue

/-- `Values::greater_than_unsign`. -/
def Values.greater_than_unsign : Values → Values → Values
  | Values.I32 l, Values.I32 r => Values.I32 (Arith.greater_than_unsign 32 l r)
  | Values.I64 l, Values.I64 r => Values.I64 (Arith.greater_than_unsign 64 l r)
  | _, _ => unimplementedValue

/-- `Values::greater_than_equal_unsign`. -/
def Values.greater_than_equal_unsign : Values → Values → Values
  | Values.I32 l, Values.I32 r => Values.I32 (Arith.greater_than_equal_unsign 32 l r)
  | Values.I64 l, Values.I64 r => Values.I64 (Arith.greater_than_equal_unsign 64 l r)
  | _, _ => unimplementedValue

/-- `Values::div_s` (`bynary_try_inst!(div_s, div_s)`). -/
def Values.div_s : Values → Values → Except Trap Values
  | Values.I32 l, Values.I32 r => (intDivS 32 l r).map Values.I32
  | Values.I64 l, Values.I64 r => (intDivS 64 l r).map Values.I64
  | _, _ => Except.error Trap.Unknown

/-- `Values::rem_s` (`bynary_try_inst!(rem_s, rem_s)`). -/
def Values.rem_s : Values → Values → Except Trap Values
  | Values.I32 l, Values.I32 r => (intRemS 32 l r).map Values.I32
  | Values.I64 l, Values.I64 r => (intRemS 64 l r).map Values.I64
  | _, _ => Except.error Trap.Unknown

/-- `Values::is_truthy` from `src/value.rs`: an `I32` is truthy iff it is
strictly positive; the `I64` arm of the source is `unimplemented!()`,
modelled as `false` and unreachable in the theorems below. -/
def Values.is_truthy : Values → Bool
  | Values.I32 n => decide (0 < n)
  | _ => false

/-- Instruction set of the interpreter, from `src/inst.rs` (`enum Inst`);
only the variants exercised by the claims are carried.  As in the source,
`If` holds its result type and the decoded then/else instruction lists. -/
inductive Inst where
  | I32Const (n : Int)
  | I64Const (n : Int)
  | GetLocal (idx : Nat)
  | SetLocal (idx : Nat)
  | Call (idx : Nat)
  | I32Add
  | I32Sub
  | I32Mul
  | I32DivSign
  | I64DivSign
  | I32RemSign
  | I64RemSign
  | Equal
  | I64Equal
  | Select
  | DropInst
  | If (rt : ValueTypes) (thenOps : List Inst) (elseOps : List Inst)

/-- Call frame, from its construction in `Vm::call`
(`Frame { locals, return_ptr, function_idx }`). -/
structure Frame where
  locals : List Values
  return_ptr : Nat
  function_idx : Nat

/-- Stack entries.  Modelled from the spec (one contiguous stack of
`Value`/`Label`/`Frame`/`Empty` entries) and the `StackEntry` uses
in `lib.rs`. -/
inductive StackEntry where
  | Value (v : Values)
  | Label (insts : List Inst)
  | Frame (f : Frame)
  | Empty

/-- Modelled from the spec: the interpreter stack of `stack.rs` (absent
from the sources).  A backing array pre-filled with `Empty` (represented
as a total function from indices), a stack pointer, and a stack of frame
pointers; the 65536-entry capacity is elided. -/
structure Stack where
  entries : Nat → StackEntry
  stack_ptr : Nat
  frame_ptrs : List Nat

/-- `Stack::new`: empty backing store, pointer at zero. -/
def Stack.new : Stack :=
  { entries := fun _ => StackEntry.Empty, stack_ptr := 0, frame_ptrs := [] }

/-- `Stack::push`: write at the stack pointer, then bump it. -/
def Stack.push (s : Stack) (e : StackEntry) : Stack :=
  { entries := fun j => if j = s.stack_ptr then e else s.entries j,
    stack_ptr := s.stack_ptr + 1,
    frame_ptrs := s.frame_ptrs }

/-- `Stack::pop`: decrement the pointer and return the entry there
(the backing array keeps the stale entry, as a Rust vector would). -/
def Stack.pop (s : Stack) : Option (StackEntry × Stack) :=
  match s.stack_ptr with
  | 0 => none
  | n + 1 => some (s.entries n, { s with stack_ptr := n })

/-- `Stack::pop_value`: pop and require a `Value` entry.  The source
panics on any other entry; that path is `none` here and unreachable in
the theorems below. -/
def Stack.pop_value (s : Stack) : Option (Values × Stack) :=
  match s.pop with
  | some (StackEntry.Value v, s1) => some (v, s1)
  | _ => none

/-- `Stack::get`: random access into the backing array. -/
def Stack.get (s : Stack) (i : Nat) : StackEntry := s.entries i

/-- `Stack::set`: random write into the backing array (does not move the
stack pointer, per the `stack_ptr` unit test in `lib.rs`). -/
def Stack.set (s : Stack) (i : Nat) (e : StackEntry) : Stack :=
  { s with entries := fun j => if j = i then e else s.entries j }

/-- `Stack::get_frame_ptr`: the most recently pushed frame pointer. -/
def Stack.get_frame_ptr (s : Stack) : Nat := s.frame_ptrs.headD 0

/-- `Stack::update_frame_ptr`: reset the stack pointer to the most recent
frame pointer and discard it (used when a frame's evaluation returns). -/
def Stack.update_frame_ptr (s : Stack) : Stack :=
  { s with stack_ptr := s.frame_ptrs.headD 0, frame_ptrs := s.frame_ptrs.tail }

/-- `Stack::increase`: reserve `n` slots (for declared locals). -/
def Stack.increase (s : Stack) (n : Nat) : Stack :=
  { s with stack_ptr := s.stack_ptr + n }

/-- The `is_empty` flag read by `Vm::evaluate`'s loop condition. -/
def Stack.is_empty (s : Stack) : Bool := s.stack_ptr == 0

/-- `FunctionType` as in the early `byte.rs` generation: parameter and
return type lists. -/
structure FunctionType where
  parameters : List ValueTypes
  returns : List ValueTypes

/-- Modelled from the spec and the early `byte.rs` generation: a function
instance owns its optional export name, type, declared locals and body. -/
structure FunctionInstance where
  export_name : Option String
  function_type : FunctionType
  locals : List ValueTypes
  type_idex : Nat
  body : List Inst

/-- `FunctionInstance::find`: does the export name match the key? -/
def FunctionInstance.find (f : FunctionInstance) (key : String) : Bool :=
  match f.export_name with
  | some name => name == key
  | none => false

/-- `FunctionInstance::call`: the body and the declared locals. -/
def FunctionInstance.call (f : FunctionInstance) : List Inst × List ValueTypes :=
  (f.body, f.locals)

/-- Modelled from the spec: the store of `store.rs` (absent from the
sources); only the function instances are needed by the claims. -/
structure Store where
  function_instances : List FunctionInstance

/-- `Store::call`: look up a function instance by index. -/
def Store.call (s : Store) (idx : Nat) : Option FunctionInstance :=
  s.function_instances.get? idx

/-- `Store::get_function_idx`: index of the export with the given name
(`List.findIdx` returns the list length when the name is absent; that
path is unreachable in the theorems below). -/
def Store.get_function_idx (s : Store) (invoke : String) : Nat :=
  s.function_instances.findIdx (fun f => f.find invoke)

/-- The virtual machine: a store and a stack (`struct Vm` in `lib.rs`). -/
structure Vm where
  store : Store
  stack : Stack

/-- `Vm::call`: push a frame whose locals are the arguments and whose
return pointer is the current stack pointer. -/
def Vm.call (idx : Nat) (arguments : List Values) (s : Stack) : Stack :=
  s.push (StackEntry.Frame
    { locals := arguments, return_ptr := s.stack_ptr, function_idx := idx })

/-- `impl_binary_inst!`: pop the right operand, then the left, push
`op left right`.  A pop of a non-value is the panic path. -/
def Vm.binary_inst (vm : Vm) (op : Values → Values → Values) : Vm × Option Trap :=
  match vm.stack.pop_value with
  | none => (vm, some Trap.StackUnderflow)
  | some (right, s1) =>
    match s1.pop_value with
    | none => ({ vm with stack := s1 }, some Trap.StackUnderflow)
    | some (left, s2) =>
      ({ vm with stack := s2.push (StackEntry.Value (op left right)) }, none)

/-- `impl_try_binary_inst!`: as `binary_inst` but the operation may trap,
in which case the trap is returned with the operands already popped. -/
def Vm.try_binary_inst (vm : Vm) (op : Values → Values → Except Trap Values) :
    Vm × Option Trap :=
  match vm.stack.pop_value with
  | none => (vm, some Trap.StackUnderflow)
  | some (right, s1) =>
    match s1.pop_value with
    | none => ({ vm with stack := s1 }, some Trap.StackUnderflow)
    | some (left, s2) =>
      match op left right with
      | Except.ok result => ({ vm with stack := s2.push (StackEntry.Value result) }, none)
      | Except.error trap => ({ vm with stack := s2 }, some trap)

/-- Selector for the two mutually recursive evaluator entry points
(`Vm::evaluate_instructions` and `Vm::evaluate`); folding both into one
fuel-indexed function keeps the recursion structural on `Nat`, so that
concrete runs reduce definitionally. -/
inductive EvalJob where
  | insts (insts : List Inst)
  | loop

/-- The evaluator core.  `EvalJob.insts` mirrors
`Vm::evaluate_instructions` branch by branch; `EvalJob.loop` mirrors
`Vm::evaluate` (including the inlined `Vm::evaluate_frame` in the
`Label` arm).  The second component is `none` for `Ok(())` and
`some trap` for `Err(trap)`; as in Rust, the state reached so far is
returned alongside an error.  The `If` and `Call` arms discard the
nested result's error exactly as the source's `let _ = ...` does. -/
def evalGo : Nat → EvalJob → Vm → Vm × Option Trap
  | _, EvalJob.insts [], vm => (vm, none)
  | 0, _, vm => (vm, some Trap.Unknown)
  | fuel + 1, EvalJob.insts (inst :: rest), vm =>
    match inst with
    | Inst.GetLocal idx =>
      let frame_ptr := vm.stack.get_frame_ptr
      let value := vm.stack.get (idx + frame_ptr)
      evalGo fuel (EvalJob.insts rest) { vm with stack := vm.stack.push value }
    | Inst.SetLocal idx =>
      match vm.stack.pop with
      | none => (vm, some Trap.UnexpectedEnd)
      | some (value, s1) =>
        let frame_ptr := s1.get_frame_ptr
        evalGo fuel (EvalJob.insts rest) { vm with stack := s1.set (idx + frame_ptr) value }
    | Inst.Call idx =>
      match vm.stack.pop_value with
      | none => (vm, some Trap.StackUnderflow)
      | some (operand, s1) =>
        let s2 := Vm.call idx [operand] s1
        let vm1 := (evalGo fuel EvalJob.loop { vm with stack := s2 }).1
        evalGo fuel (EvalJob.insts rest) vm1
    | Inst.I32Const n =>
      evalGo fuel (EvalJob.insts rest)
        { vm with stack := vm.stack.push (StackEntry.Value (Values.I32 n)) }
    | Inst.I64Const n =>
      evalGo fuel (EvalJob.insts rest)
        { vm with stack := vm.stack.push (StackEntry.Value (Values.I64 n)) }
    | Inst.I32Add =>
      match vm.binary_inst Values.add with
      | (vm1, none) => evalGo fuel (EvalJob.insts rest) vm1
      | (vm1, some t) => (vm1, some t)
    | Inst.I32Sub =>
      match vm.binary_inst Values.sub with
      | (vm1, none) => evalGo fuel (EvalJob.insts rest) vm1
      | (vm1, some t) => (vm1, some t)
    | Inst.I32Mul =>
      match vm.binary_inst Values.mul with
      | (vm1, none) => evalGo fuel (EvalJob.insts rest) vm1
      | (vm1, some t) => (vm1, some t)
    | Inst.I32DivSign =>
      match vm.try_binary_inst Values.div_s with
      | (vm1, none) => evalGo fuel (EvalJob.insts rest) vm1
      | (vm1, some t) => (vm1, some t)
    | Inst.I64DivSign =>
      match vm.try_binary_inst Values.div_s with
      | (vm1, none) => evalGo fuel (EvalJob.insts rest) vm1
      | (vm1, some t) => (vm1, some t)
    | Inst.I32RemSign =>
      match vm.try_binary_inst Values.rem_s with
      | (vm1, none) => evalGo fuel (EvalJob.insts rest) vm1
      | (vm1, some t) => (vm1, some t)
    | Inst.I64RemSign =>
      match vm.try_binary_inst Values.rem_s with
      | (vm1, none) => evalGo fuel (EvalJob.insts rest) vm1
      | (vm1, some t) => (vm1, some t)
    | Inst.Equal =>
      match vm.binary_inst Values.equal with
      | (vm1, none) => evalGo fuel (EvalJob.insts rest) vm1
      | (vm1, some t) => (vm1, some t)
    | Inst.I64Equal =>
      match vm.binary_inst Values.equal with
      | (vm1, none) => evalGo fuel (EvalJob.insts rest) vm1
      | (vm1, some t) => (vm1, some t)
    | Inst.Select =>
      match vm.stack.pop_value with
      | none => (vm, some Trap.StackUnderflow)
      | some (cond, s1) =>
        match s1.pop_value with
        | none => ({ vm with stack := s1 }, some Trap.StackUnderflow)
        | some (false_br, s2) =>
          match s2.pop_value with
          | none => ({ vm with stack := s2 }, some Trap.StackUnderflow)
          | some (true_br, s3) =>
            let s4 :=
              if cond.is_truthy then s3.push (StackEntry.Value true_br)
              else s3.push (StackEntry.Value false_br)
            evalGo fuel (EvalJob.insts rest) { vm with stack := s4 }
    | Inst.DropInst =>
      match vm.stack.pop_value with
      | none => (vm, some Trap.StackUnderflow)
      | some (_, s1) => evalGo fuel (EvalJob.insts rest) { vm with stack := s1 }
    | Inst.If _rt if_ops else_ops =>
      match vm.stack.pop_value with
      | none => (vm, some Trap.StackUnderflow)
      | some (cond, s1) =>
        let vm1 := { vm with stack := s1 }
        let vm2 :=
          if cond.is_truthy then (evalGo fuel (EvalJob.insts if_ops) vm1).1
          else if else_ops.isEmpty then vm1
          else (evalGo fuel (EvalJob.insts else_ops) vm1).1
        evalGo fuel (EvalJob.insts rest) vm2
  | fuel + 1, EvalJob.loop, vm =>
    if vm.stack.is_empty then (vm, some Trap.StackUnderflow)
    else
      match vm.stack.pop with
      | none => (vm, some Trap.StackUnderflow)
      | some (StackEntry.Value v, s1) =>
        ({ vm with stack := s1.push (StackEntry.Value v) }, none)
      | some (StackEntry.Label insts, s1) =>
        match evalGo fuel (EvalJob.insts insts) { vm with stack := s1 } with
        | (vm1, some t) => (vm1, some t)
        | (vm1, none) =>
          match vm1.stack.pop_value with
          | none => (vm1, some Trap.StackUnderflow)
          | some (return_value, s2) =>
            evalGo fuel EvalJob.loop
              { vm1 with stack := (s2.update_frame_ptr).push (StackEntry.Value return_value) }
      | some (StackEntry.Frame f, s1) =>
        let s2 := { s1 with frame_ptrs := f.return_ptr :: s1.frame_ptrs }
        let s3 := f.locals.foldl (fun s v => s.push (StackEntry.Value v)) s2
        let bodyLocals :=
          match vm.store.call f.function_idx with
          | some fi => fi.call
          | none => ([], [])
        let s4 := s3.increase bodyLocals.2.length
        let s5 := s4.push (StackEntry.Label bodyLocals.1)
        evalGo fuel EvalJob.loop { vm with stack := s5 }
      | some (StackEntry.Empty, _) => (vm, some Trap.Unknown)

/-- `Vm::evaluate_instructions` (fuel-indexed entry point). -/
def evaluate_instructions (fuel : Nat) (insts : List Inst) (vm : Vm) : Vm × Option Trap :=
  evalGo fuel (EvalJob.insts insts) vm

/-- `Vm::evaluate` (fuel-indexed entry point). -/
def evaluate (fuel : Nat) (vm : Vm) : Vm × Option Trap :=
  evalGo fuel EvalJob.loop vm

/-- `Vm::run`: look up the export, push the call frame, evaluate, and
render the result value or the trap as a string.  The source's `F32`/`F64`
match arms are dead with the two-variant `Values` of `value.rs`. -/
def Vm.run (fuel : Nat) (vm : Vm) (invoke : String) (arguments : List Values) : String :=
  let start_idx := vm.store.get_function_idx invoke
  let s := Vm.call start_idx arguments vm.stack
  match evaluate fuel { vm with stack := s } with
  | (vm1, none) =>
    match vm1.stack.pop_value with
    | some (Values.I32 v, _) => "i32:" ++ toString v
    | some (Values.I64 v, _) => "i64:" ++ toString v
    | none => "stack underflow"
  | (_, some err) => trapToString err

/-- The decoded `sub` module of the spec's scenario 2 and the
`evaluate_sub` test: one exported function whose body is
`i32.const 100; get_local 0; i32.sub` (see the `decode_sub` test
in `byte.rs`). -/
def storeSub : Store :=
  { function_instances :=
      [ { export_name := some "sub",
          function_type := { parameters := [ValueTypes.I32], returns := [ValueTypes.I32] },
          locals := [],
          type_idex := 0,
          body := [Inst.I32Const 100, Inst.GetLocal 0, Inst.I32Sub] } ] }

/-- The two-parameter `i32.div_s` module of the spec's scenarios 4 and 5:
`get_local 0; get_local 1; i32.div_s` exported as `"d"`. -/
def storeD : Store :=
  { function_instances :=
      [ { export_name := some "d",
          function_type :=
            { parameters := [ValueTypes.I32, ValueTypes.I32], returns := [ValueTypes.I32] },
          locals := [],
          type_idex := 0,
          body := [Inst.GetLocal 0, Inst.GetLocal 1, Inst.I32DivSign] } ] }

/-- The accumulation loop of `Byte::decode_leb128` in `src/byte.rs`.  The
byte cursor is the list of remaining bytes; `buf` is the `i32`
accumulator carried as its unsigned 32-bit pattern.  While a byte has its
continuation bit set, that bit is dropped (`b ^ 0x80`), the group is
shifted into place and XOR-ed into the accumulator; the first byte with a
clear continuation bit is the final group, XOR-ed in whole.  No sign
extension is applied to the final group.  Running out of bytes is the
`None` of `peek()?`/`next()?`.  (The `% 2 ^ 32` images the `i32` width of
the accumulator; Rust shifts with `shift ≥ 32` differ per build profile
and never occur in the theorems below.) -/
def decode_leb128_loop : List Nat → Nat → Nat → Option (Nat × List Nat)
  | [], _, _ => none
  | b :: rest, buf, shift =>
    if b &&& 128 ≠ 0 then
      decode_leb128_loop rest (buf ^^^ (((b ^^^ 128) <<< shift) % 2 ^ 32)) (shift + 7)
    else
      some (buf ^^^ ((b <<< shift) % 2 ^ 32), rest)

/-- Reading of the accumulator's 32-bit pattern as the signed `i32` the
source returns. -/
def toSigned32 (bits : Nat) : Int :=
  if bits % 2 ^ 32 < 2 ^ 31 then ((bits % 2 ^ 32 : Nat) : Int)
  else ((bits % 2 ^ 32 : Nat) : Int) - 2 ^ 32

/-- `Byte::decode_leb128`: decode one LEB128 integer from the front of the
byte stream, returning it together with the remaining bytes. -/
def decode_leb128 (bytes : List Nat) : Option (Int × List Nat) :=
  (decode_leb128_loop bytes 0 0).map (fun p => (toSigned32 p.1, p.2))

/-- Validation errors.  The `error` module of the validator is not among
the sources; the variants are modelled from their uses in
`src/validate/context.rs` and the spec's validator error taxonomy. -/
inductive TypeError where
  | TypeMismatch
  | ConstantExpressionRequired
  | InvalidAlignment
  | UnknownLabel
  | UnknownTable (idx : Nat)
  | InvalidResultArity
  deriving DecidableEq

/-- Global mutability descriptor (`global.rs`, absent from the sources;
modelled from its uses in `validate_constant` and the spec: `Const` is an
immutable binding, `Var` a mutable one). -/
inductive GlobalType where
  | Const (ty : ValueTypes)
  | Var (ty : ValueTypes)
  deriving DecidableEq

/-- Instructions of the validator generation (`inst::Inst` as used by
`src/validate/context.rs`); only the variants relevant to constant
expressions are carried, plus representatives of "any other instruction".
The `f32`/`f64` payloads are dropped: `validate_constant` never reads
them. -/
inductive VInst where
  | I32Const (n : Int)
  | I64Const (n : Int)
  | F32Const
  | F64Const
  | GetGlobal (idx : Nat)
  | GetLocal (idx : Nat)
  | SetGlobal (idx : Nat)
  | Nop
  | I32Add
  | End
  deriving DecidableEq

/-- Entries of the validator's type stack (`enum Entry` in
`src/validate/context.rs`). -/
inductive VEntry where
  | Type (ty : ValueTypes)
  | Label
  deriving DecidableEq

/-- Memory limits (`memory::Limit`, absent from the sources; modelled from
the spec: a minimum and an optional maximum, in pages).  `validate_load`
and `validate_store` only test whether any limit exists. -/
structure Limit where
  min : Nat
  max : Option Nat
  deriving DecidableEq

/-- `Context::validate_constant` from `src/validate/context.rs`.  The
first instruction must be a `*.const` (pushing its type) or a `GetGlobal`
whose index is within the module's globals — `Const` or `Var` alike —
(pushing that global's type); a `GetGlobal` out of range is
`TypeMismatch`, any other first instruction is
`ConstantExpressionRequired`.  The second instruction must be `End`,
otherwise `ConstantExpressionRequired`; instructions beyond the second
are never inspected.  The fresh type stack the source pushes into and
pops from holds exactly one type, and is elided. -/
def validate_constant (globals : List (GlobalType × List VInst)) (expr : List VInst) :
    Except TypeError ValueTypes :=
  let head :=
    match expr.get? 0 with
    | some (VInst.I32Const _) => Except.ok ValueTypes.I32
    | some (VInst.I64Const _) => Except.ok ValueTypes.I64
    | some VInst.F32Const => Except.ok ValueTypes.F32
    | some VInst.F64Const => Except.ok ValueTypes.F64
    | some (VInst.GetGlobal idx) =>
      match globals.get? idx with
      | some (GlobalType.Const ty, _) => Except.ok ty
      | some (GlobalType.Var ty, _) => Except.ok ty
      | none => Except.error TypeError.TypeMismatch
    | _ => Except.error TypeError.ConstantExpressionRequired
  match head with
  | Except.error e => Except.error e
  | Except.ok ty =>
    match expr.get? 1 with
    | some VInst.End => Except.ok ty
    | _ => Except.error TypeError.ConstantExpressionRequired

/-- Does an instruction belong to the shapes `validate_constant` accepts
in the first slot?  (Summarises the patterns of its first `match`.) -/
def constHead : VInst → Bool
  | VInst.I32Const _ => true
  | VInst.I64Const _ => true
  | VInst.F32Const => true
  | VInst.F64Const => true
  | VInst.GetGlobal _ => true
  | _ => false

/-- `Context::validate_load` from `src/validate/context.rs`: require a
declared memory (`limits.first()`, else `TypeMismatch`); reject
`2^align > bit_width/8` with `InvalidAlignment`; pop an `i32` effective
address from the type stack (else `TypeMismatch`) and push the loaded
type.  The type stack is a list with its top at the head. -/
def validate_load (limits : List Limit) (cxt : List VEntry) (align bit_width : Nat)
    (ty : ValueTypes) : Except TypeError (List VEntry) :=
  match limits with
  | [] => Except.error TypeError.TypeMismatch
  | _ :: _ =>
    if 2 ^ align > bit_width / 8 then Except.error TypeError.InvalidAlignment
    else
      match cxt with
      | VEntry.Type ValueTypes.I32 :: rest => Except.ok (VEntry.Type ty :: rest)
      | _ => Except.error TypeError.TypeMismatch

/-- `Context::validate_store`: as `validate_load` but nothing is pushed
back. -/
def validate_store (limits : List Limit) (cxt : List VEntry) (align bit_width : Nat) :
    Except TypeError (List VEntry) :=
  match limits with
  | [] => Except.error TypeError.TypeMismatch
  | _ :: _ =>
    if 2 ^ align > bit_width / 8 then Except.error TypeError.InvalidAlignment
    else
      match cxt with
      | VEntry.Type ValueTypes.I32 :: rest => Except.ok rest
      | _ => Except.error TypeError.TypeMismatch

/-- The operand stack `[true_br, false_br, cond]` (bottom to top) on which
the interpreter executes a `Select`: the condition is popped first, then
the false branch, then the true branch. -/
def selectStack (true_br false_br cond : Values) : Stack :=
  ((Stack.new.push (StackEntry.Value true_br)).push
      (StackEntry.Value false_br)).push (StackEntry.Value cond)

/-- Helper: a 0/1-valued conditional takes only the values 0 and 1. -/
theorem boolToIntCases (c : Prop) [Decidable c] :
    (if c then (1 : Int) else 0) = 0 ∨ (if c then (1 : Int) else 0) = 1 := by
  split
  · exact Or.inr rfl
  · exact Or.inl rfl

/-- Helper: popping a value just pushed returns it, with the stack pointer
back where it was (the backing array keeps the written entry). -/
theorem pop_value_push (s : Stack) (v : Values) :
    Stack.pop_value (s.push (StackEntry.Value v))
      = some (v, { s.push (StackEntry.Value v) with stack_ptr := s.stack_ptr }) := by
  simp [Stack.pop_value, Stack.pop, Stack.push]

/-- Claim C1 (amended): for equal-width signed operands, `div_s` traps
`DivisionByZero` exactly when the divisor is zero; when the dividend is
`INT_MIN` and the divisor `-1` it traps `DivisionOverflow` — not
`IntegerOverflow`, though both variants render as the conformance string
"integer overflow" — and otherwise it returns the exact truncated
quotient; running the two-parameter `i32.div_s` module at
`[i32::MIN, -1]` accordingly yields the trap string "integer overflow". -/
theorem div_s_semantics (w : Nat) (l r : Int) :
    (intDivS w l r = Except.error Trap.DivisionByZero ↔ r = 0)
    ∧ intDivS w (intMin w) (-1) = Except.error Trap.DivisionOverflow
    ∧ (r ≠ 0 → ¬(l = intMin w ∧ r = -1) → intDivS w l r = Except.ok (l.tdiv r))
    ∧ trapToString Trap.DivisionOverflow = trapToString Trap.IntegerOverflow
    ∧ Vm.run 32 { store := storeD, stack := Stack.new } "d"
        [Values.I32 (intMin 32), Values.I32 (-1)] = "integer overflow" := by
  refine ⟨⟨?_, ?_⟩, ?_, ?_, rfl, by rfl⟩
  · intro h
    by_contra hr
    rcases hb : (overflowingDiv w l r).2 <;> simp [intDivS, hr, hb] at h
  · intro h
    simp [intDivS, h]
  · simp [intDivS, overflowingDiv]
  · intro hr hmin
    simp [intDivS, overflowingDiv, hr, hmin]

/-- Witness for `div_s_semantics` at `w = 32`, `l = 7`, `r = 2`. -/
theorem div_s_semantics_witness : intDivS 32 7 2 = Except.ok 3 :=
  ((div_s_semantics 32 7 2).2.2.1 (by decide) (by decide)).trans
    (congrArg Except.ok (by decide))

/-- Claim C1 as stated is false at the concrete input `(i32::MIN, -1)`:
the code traps `DivisionOverflow` there, not `IntegerOverflow`. -/
theorem div_s_trap_kind_counterexample :
    intDivS 32 (intMin 32) (-1) = Except.error Trap.DivisionOverflow
    ∧ intDivS 32 (intMin 32) (-1) ≠ Except.error Trap.IntegerOverflow :=
  ⟨rfl, fun h => Trap.noConfusion (Except.error.inj h)⟩

/-- Claim C2: `rem_s` traps `DivisionByZero` if and only if the divisor
is zero (no other trap is possible); `rem_s(INT_MIN, -1)` returns `0`
without trapping; every other in-domain pair returns the truncated
remainder. -/
theorem rem_s_semantics (w : Nat) (l r : Int) :
    (∀ t : Trap, intRemS w l r = Except.error t → t = Trap.DivisionByZero ∧ r = 0)
    ∧ (r = 0 → intRemS w l r = Except.error Trap.DivisionByZero)
    ∧ intRemS w (intMin w) (-1) = Except.ok 0
    ∧ (r ≠ 0 → ¬(l = intMin w ∧ r = -1) → intRemS w l r = Except.ok (l.tmod r)) := by
  refine ⟨?_, ?_, ?_, ?_⟩
  · intro t h
    by_cases hr : r = 0
    · simp [intRemS, hr] at h
      exact ⟨h.symm, hr⟩
    · simp [intRemS, hr] at h
  · intro h
    simp [intRemS, h]
  · simp [intRemS, overflowingRem]
  · intro hr hmin
    simp [intRemS, overflowingRem, hr, hmin]

/-- Witness for `rem_s_semantics` at `w = 32`, `l = 7`, `r = 2`. -/
theorem rem_s_semantics_witness : intRemS 32 7 2 = Except.ok 1 :=
  ((rem_s_semantics 32 7 2).2.2.2 (by decide) (by decide)).trans
    (congrArg Except.ok (by decide))

/-- Claim C3: running the exported `sub` function (body `i32.const 100;
get_local 0; i32.sub`) with the single argument `I32(10)` produces
`I32(90)` — rendered "i32:90" by `Vm::run` — the interpreter pushing the
constant and the local, popping the right operand then the left, and
producing left minus right (`Values::sub`). -/
theorem run_sub_returns_90 :
    Vm.run 32 { store := storeSub, stack := Stack.new } "sub" [Values.I32 10] = "i32:90"
    ∧ Values.sub (Values.I32 100) (Values.I32 10) = Values.I32 90 :=
  ⟨by rfl, by rfl⟩

/-- Claim C4 is a code bug: `Byte::decode_leb128` uses the 7-bit
little-endian group framing of unsigned LEB128 but never sign-extends
the final group, so the single payload byte `0x7f` — the signed-LEB128
encoding of `-1` used by `i32.const -1` — decodes to `127` instead of
`-1`.  (The framing itself is exercised by `0xff 0x01 ↦ 255`.) -/
theorem decode_leb128_no_sign_extension :
    decode_leb128 [127] = some (127, [])
    ∧ decode_leb128 [255, 1] = some (255, [])
    ∧ (127 : Int) ≠ -1 :=
  ⟨by rfl, by rfl, by decide⟩

/-- Claim C5 as stated is false at concrete inputs: a constant expression
reading a module global declared mutable (`Var`) validates, trailing
instructions after the slot-1 `End` are not inspected (a
three-instruction sequence validates), and neither is rejected with
`ConstantExpressionRequired`. -/
theorem validate_constant_counterexample :
    validate_constant [(GlobalType.Var ValueTypes.I32, [])]
        [VInst.GetGlobal 0, VInst.End] = Except.ok ValueTypes.I32
    ∧ validate_constant [] [VInst.I32Const 0, VInst.End, VInst.I32Const 1]
        = Except.ok ValueTypes.I32
    ∧ validate_constant [(GlobalType.Var ValueTypes.I32, [])]
        [VInst.GetGlobal 0, VInst.End] ≠ Except.error TypeError.ConstantExpressionRequired :=
  ⟨rfl, rfl, fun h => Except.noConfusion h⟩

/-- Claim C5 (amended): `validate_constant` accepts exactly the
expressions whose slot 0 is a `*.const` (any of the four kinds) or a
`GetGlobal` of an in-range module global — immutable (`Const`) or mutable
(`Var`) alike — and whose slot 1 is `End`, never inspecting later slots;
for every such valid head, a missing or non-`End` slot 1 is
`ConstantExpressionRequired`, as is a slot-0 instruction of any other
shape or an empty expression, while a `GetGlobal` with an out-of-range
index is `TypeMismatch`. -/
theorem validate_constant_characterization (gs : List (GlobalType × List VInst)) :
    (∀ n rest,
      validate_constant gs (VInst.I32Const n :: VInst.End :: rest) = Except.ok ValueTypes.I32)
    ∧ (∀ n rest,
      validate_constant gs (VInst.I64Const n :: VInst.End :: rest) = Except.ok ValueTypes.I64)
    ∧ (∀ rest,
      validate_constant gs (VInst.F32Const :: VInst.End :: rest) = Except.ok ValueTypes.F32)
    ∧ (∀ rest,
      validate_constant gs (VInst.F64Const :: VInst.End :: rest) = Except.ok ValueTypes.F64)
    ∧ (∀ i ty init rest, gs[i]? = some (GlobalType.Const ty, init) →
      validate_constant gs (VInst.GetGlobal i :: VInst.End :: rest) = Except.ok ty)
    ∧ (∀ i ty init rest, gs[i]? = some (GlobalType.Var ty, init) →
      validate_constant gs (VInst.GetGlobal i :: VInst.End :: rest) = Except.ok ty)
    ∧ (∀ i rest, gs[i]? = none →
      validate_constant gs (VInst.GetGlobal i :: rest) = Except.error TypeError.TypeMismatch)
    ∧ (∀ inst rest, constHead inst = false →
      validate_constant gs (inst :: rest) = Except.error TypeError.ConstantExpressionRequired)
    ∧ validate_constant gs [] = Except.error TypeError.ConstantExpressionRequired
    ∧ (∀ inst tail, constHead inst = true →
      (∀ i, inst = VInst.GetGlobal i → gs[i]? ≠ none) →
      tail[0]? ≠ some VInst.End →
      validate_constant gs (inst :: tail) = Except.error TypeError.ConstantExpressionRequired) := by
  refine ⟨?_, ?_, ?_, ?_, ?_, ?_, ?_, ?_, ?_, ?_⟩
  · intro n rest
    simp [validate_constant]
  · intro n rest
    simp [validate_constant]
  · intro rest
    simp [validate_constant]
  · intro rest
    simp [validate_constant]
  · intro i ty init rest h
    simp [validate_constant, h]
  · intro i ty init rest h
    simp [validate_constant, h]
  · intro i rest h
    simp [validate_constant, h]
  · intro inst rest h
    cases inst <;> simp_all [validate_constant, constHead]
  · simp [validate_constant]
  · intro inst tail hhead hglobal hEnd
    cases inst with
    | I32Const n =>
      rcases h0 : tail[0]? with _ | i2
      · simp [validate_constant, h0]
      · cases i2 <;> first | exact absurd h0 hEnd | simp [validate_constant, h0]
    | I64Const n =>
      rcases h0 : tail[0]? with _ | i2
      · simp [validate_constant, h0]
      · cases i2 <;> first | exact absurd h0 hEnd | simp [validate_constant, h0]
    | F32Const =>
      rcases h0 : tail[0]? with _ | i2
      · simp [validate_constant, h0]
      · cases i2 <;> first | exact absurd h0 hEnd | simp [validate_constant, h0]
    | F64Const =>
      rcases h0 : tail[0]? with _ | i2
      · simp [validate_constant, h0]
      · cases i2 <;> first | exact absurd h0 hEnd | simp [validate_constant, h0]
    | GetGlobal i =>
      rcases hg : gs[i]? with _ | ⟨g, init⟩
      · exact absurd hg (hglobal i rfl)
      · rcases h0 : tail[0]? with _ | i2
        · cases g <;> simp [validate_constant, h0, hg]
        · cases g <;> cases i2 <;>
            first | exact absurd h0 hEnd | simp [validate_constant, h0, hg]
    | GetLocal i => simp [constHead] at hhead
    | SetGlobal i => simp [constHead] at hhead
    | Nop => simp [constHead] at hhead
    | I32Add => simp [constHead] at hhead
    | End => simp [constHead] at hhead

/-- Witness for `validate_constant_characterization`: a mutable global
reference and an `i64.const` accepted with `End`; a non-constant head
rejected; an out-of-range global index rejected with `TypeMismatch`; a
valid head with a missing second slot and a valid head with a non-`End`
second slot both rejected with `ConstantExpressionRequired`. -/
theorem validate_constant_characterization_witness :
    validate_constant [(GlobalType.Var ValueTypes.I64, [])]
        [VInst.GetGlobal 0, VInst.End] = Except.ok ValueTypes.I64
    ∧ validate_constant [] [VInst.I64Const 7, VInst.End] = Except.ok ValueTypes.I64
    ∧ validate_constant [] [VInst.GetLocal 0, VInst.End]
        = Except.error TypeError.ConstantExpressionRequired
    ∧ validate_constant [] [VInst.GetGlobal 3, VInst.End]
        = Except.error TypeError.TypeMismatch
    ∧ validate_constant [] [VInst.I32Const 5]
        = Except.error TypeError.ConstantExpressionRequired
    ∧ validate_constant [] [VInst.F32Const, VInst.I32Add]
        = Except.error TypeError.ConstantExpressionRequired :=
  ⟨(validate_constant_characterization _).2.2.2.2.2.1 0 _ [] [] rfl,
   (validate_constant_characterization _).2.1 7 [],
   (validate_constant_characterization _).2.2.2.2.2.2.2.1 _ _ rfl,
   (validate_constant_characterization _).2.2.2.2.2.2.1 3 _ rfl,
   (validate_constant_characterization _).2.2.2.2.2.2.2.2.2 (VInst.I32Const 5) []
     rfl (fun i h => VInst.noConfusion h) (by decide),
   (validate_constant_characterization _).2.2.2.2.2.2.2.2.2 VInst.F32Const [VInst.I32Add]
     rfl (fun i h => VInst.noConfusion h) (by decide)⟩

/-- Claim C6: with at least one memory declared (and the alignment in the
exponent range of `2u32.pow`), `validate_load` and `validate_store` fail
with `InvalidAlignment` exactly when `2^align > bit_width/8`. -/
theorem validate_alignment_iff (limits : List Limit) (cxt : List VEntry)
    (align bit_width : Nat) (ty : ValueTypes)
    (hmem : limits ≠ []) (_halign : align ≤ 31) :
    (validate_load limits cxt align bit_width ty = Except.error TypeError.InvalidAlignment
      ↔ 2 ^ align > bit_width / 8)
    ∧ (validate_store limits cxt align bit_width = Except.error TypeError.InvalidAlignment
      ↔ 2 ^ align > bit_width / 8) := by
  obtain ⟨l, ls, rfl⟩ : ∃ l ls, limits = l :: ls := by
    cases limits with
    | nil => exact absurd rfl hmem
    | cons a b => exact ⟨a, b, rfl⟩
  constructor
  · constructor
    · intro h
      by_contra hc
      rcases cxt with _ | ⟨ty2 | _, rest⟩
      · simp [validate_load, hc] at h
      · rcases ty2 <;> simp [validate_load, hc] at h
      · simp [validate_load, hc] at h
    · intro hgt
      simp [validate_load, hgt]
  · constructor
    · intro h
      by_contra hc
      rcases cxt with _ | ⟨ty2 | _, rest⟩
      · simp [validate_store, hc] at h
      · rcases ty2 <;> simp [validate_store, hc] at h
      · simp [validate_store, hc] at h
    · intro hgt
      simp [validate_store, hgt]

/-- Witness for `validate_alignment_iff`: one declared memory, alignment
exponent 3 against a 32-bit access (`2^3 = 8 > 4`). -/
theorem validate_alignment_iff_witness :
    (validate_load [{ min := 1, max := none }] [] 3 32 ValueTypes.I32
        = Except.error TypeError.InvalidAlignment ↔ 2 ^ 3 > 32 / 8)
    ∧ (validate_store [{ min := 1, max := none }] [] 3 32
        = Except.error TypeError.InvalidAlignment ↔ 2 ^ 3 > 32 / 8) :=
  validate_alignment_iff [{ min := 1, max := none }] [] 3 32 ValueTypes.I32
    (by decide) (by decide)

/-- Claim C7: the external string mapping sends `DivisionByZero` to
"integer divide by zero", `MemoryAccessOutOfBounds` to "out of bounds
memory access", and `IndirectCallTypeMismatch` to "indirect call type
mismatch". -/
theorem trap_strings :
    trapToString Trap.DivisionByZero = "integer divide by zero"
    ∧ trapToString Trap.MemoryAccessOutOfBounds = "out of bounds memory access"
    ∧ trapToString Trap.IndirectCallTypeMismatch = "indirect call type mismatch" :=
  ⟨rfl, rfl, rfl⟩

/-- Claim C8: `is_truthy` holds for an `I32` condition iff it is strictly
greater than zero; consequently, for every negative condition `n`,
`Select` pushes the false-branch operand and `If` runs its else branch
(running nothing when the else branch is empty), for any store, result
type and branch bodies. -/
theorem truthiness_select_if (n : Int) (hneg : n < 0) (true_br false_br : Values)
    (st : Store) (rt : ValueTypes) (tOps eOps : List Inst) (fuel : Nat) :
    (∀ m : Int, Values.is_truthy (Values.I32 m) = true ↔ 0 < m)
    ∧ (evaluate_instructions (fuel + 1) [Inst.Select]
        { store := st, stack := selectStack true_br false_br (Values.I32 n) }).2 = none
    ∧ (∃ s2, (evaluate_instructions (fuel + 1) [Inst.Select]
        { store := st, stack := selectStack true_br false_br (Values.I32 n) }).1.stack.pop_value
          = some (false_br, s2))
    ∧ evaluate_instructions (fuel + 1) [Inst.If rt tOps eOps]
        { store := st, stack := Stack.new.push (StackEntry.Value (Values.I32 n)) }
      = (if eOps.isEmpty then
          { store := st,
            stack := { Stack.new.push (StackEntry.Value (Values.I32 n)) with stack_ptr := 0 } }
        else
          (evaluate_instructions fuel eOps
            { store := st,
              stack := { Stack.new.push (StackEntry.Value (Values.I32 n)) with stack_ptr := 0 } }).1,
        none) := by
  have hft : Values.is_truthy (Values.I32 n) = false := by
    simp [Values.is_truthy]
    omega
  have hsel : evaluate_instructions (fuel + 1) [Inst.Select]
      { store := st, stack := selectStack true_br false_br (Values.I32 n) }
      = ({ store := st,
           stack := Stack.push
             { selectStack true_br false_br (Values.I32 n) with stack_ptr := 0 }
             (StackEntry.Value false_br) }, none) := by
    simp [evaluate_instructions, evalGo, selectStack, Stack.new, Stack.push,
      Stack.pop_value, Stack.pop, hft]
  refine ⟨?_, ?_, ?_, ?_⟩
  · intro m
    simp [Values.is_truthy]
  · rw [hsel]
  · exact ⟨_, by rw [hsel]; exact pop_value_push _ _⟩
  · simp [evaluate_instructions, evalGo, Stack.new, Stack.push, Stack.pop_value,
      Stack.pop, hft]

/-- Claim C9: every comparison on two `I64` operands produces a result
tagged `I64` whose payload is 0 or 1 — not an `i32`-typed boolean. -/
theorem i64_comparisons_tagged (a b : Int) :
    (∃ v, (v = 0 ∨ v = 1) ∧ Values.equal (Values.I64 a) (Values.I64 b) = Values.I64 v)
    ∧ (∃ v, (v = 0 ∨ v = 1) ∧ Values.not_equal (Values.I64 a) (Values.I64 b) = Values.I64 v)
    ∧ (∃ v, (v = 0 ∨ v = 1) ∧ Values.less_than (Values.I64 a) (Values.I64 b) = Values.I64 v)
    ∧ (∃ v, (v = 0 ∨ v = 1) ∧ Values.less_than_equal (Values.I64 a) (Values.I64 b) = Values.I64 v)
    ∧ (∃ v, (v = 0 ∨ v = 1) ∧ Values.less_than_unsign (Values.I64 a) (Values.I64 b) = Values.I64 v)
    ∧ (∃ v, (v = 0 ∨ v = 1) ∧ Values.less_than_equal_unsign (Values.I64 a) (Values.I64 b) = Values.I64 v)
    ∧ (∃ v, (v = 0 ∨ v = 1) ∧ Values.greater_than (Values.I64 a) (Values.I64 b) = Values.I64 v)
    ∧ (∃ v, (v = 0 ∨ v = 1) ∧ Values.greater_than_equal (Values.I64 a) (Values.I64 b) = Values.I64 v)
    ∧ (∃ v, (v = 0 ∨ v = 1) ∧ Values.greater_than_unsign (Values.I64 a) (Values.I64 b) = Values.I64 v)
    ∧ (∃ v, (v = 0 ∨ v = 1) ∧ Values.greater_than_equal_unsign (Values.I64 a) (Values.I64 b) = Values.I64 v) := by
  refine ⟨⟨_, ?_, rfl⟩, ⟨_, ?_, rfl⟩, ⟨_, ?_, rfl⟩, ⟨_, ?_, rfl⟩, ⟨_, ?_, rfl⟩,
    ⟨_, ?_, rfl⟩, ⟨_, ?_, rfl⟩, ⟨_, ?_, rfl⟩, ⟨_, ?_, rfl⟩, ⟨_, ?_, rfl⟩⟩ <;>
    exact boolToIntCases _

/-- Claim C10: executing `Call idx` pops exactly one value from the
operand stack and passes it as the callee's sole argument — the pushed
frame's locals list is `[v]`, of length one — whatever the callee's
declared parameter count (the store, hence the callee's `FunctionType`,
is arbitrary); the nested `evaluate` then runs from that state and its
error, if any, is discarded. -/
theorem call_passes_single_argument (fuel idx : Nat) (st : Store) (s : Stack) (v : Values) :
    ∃ s1, (s.push (StackEntry.Value v)).pop_value = some (v, s1)
      ∧ evaluate_instructions (fuel + 1) [Inst.Call idx]
          { store := st, stack := s.push (StackEntry.Value v) }
        = ((evaluate fuel { store := st, stack := Vm.call idx [v] s1 }).1, none)
      ∧ (Vm.call idx [v] s1).pop
          = some (StackEntry.Frame
              { locals := [v], return_ptr := s1.stack_ptr, function_idx := idx },
            { Vm.call idx [v] s1 with stack_ptr := s1.stack_ptr })
      ∧ ([v] : List Values).length = 1 := by
  refine ⟨_, pop_value_push s v, ?_, ?_, rfl⟩
  · simp [evaluate_instructions, evalGo, pop_value_push, evaluate]
  · simp [Vm.call, Stack.pop, Stack.push]

/-- Witness for `truthiness_select_if` at `n = -5`, branches
`I32 1` / `I32 2`, else body `[DropInst]`, fuel 3. -/
theorem truthiness_select_if_witness :
    (-5 : Int) < 0
    ∧ ((∀ m : Int, Values.is_truthy (Values.I32 m) = true ↔ 0 < m)
      ∧ (evaluate_instructions 4 [Inst.Select]
          { store := storeSub,
            stack := selectStack (Values.I32 1) (Values.I32 2) (Values.I32 (-5)) }).2 = none
      ∧ (∃ s2, (evaluate_instructions 4 [Inst.Select]
          { store := storeSub,
            stack := selectStack (Values.I32 1) (Values.I32 2) (Values.I32 (-5)) }).1.stack.pop_value
            = some (Values.I32 2, s2))
      ∧ evaluate_instructions 4 [Inst.If ValueTypes.Empty [] [Inst.DropInst]]
          { store := storeSub, stack := Stack.new.push (StackEntry.Value (Values.I32 (-5))) }
        = (if ([Inst.DropInst] : List Inst).isEmpty then
            { store := storeSub,
              stack := { Stack.new.push (StackEntry.Value (Values.I32 (-5))) with stack_ptr := 0 } }
          else
            (evaluate_instructions 3 [Inst.DropInst]
              { store := storeSub,
                stack := { Stack.new.push (StackEntry.Value (Values.I32 (-5))) with stack_ptr := 0 } }).1,
          none)) :=
  ⟨by decide,
   truthiness_select_if (-5) (by decide) (Values.I32 1) (Values.I32 2) storeSub
     ValueTypes.Empty [] [Inst.DropInst] 3⟩
